import Mathlib

/-!
Shallow embedding of `awslabs/elasticbeanstalk_mcp_server/server.py`: an MCP
server exposing four read-only AWS Elastic Beanstalk describe-style tools.
Python request/response dictionaries are modelled as association lists over a
JSON-like value type; the AWS SDK client is modelled as an oracle function from
outbound calls to responses, and each tool returns, together with its result or
raised exception, the trace of outbound AWS calls and of log lines it produced.
-/

namespace EB

/-- Opaque element of an AWS response list (an environment, application, event
or configuration-settings description). The server never inspects these, it
only passes them through, so they are modelled as uninterpreted tags. -/
structure Item where
  tag : String
deriving DecidableEq, Repr

/-- JSON-like value appearing in request parameter dictionaries and AWS
response dictionaries. -/
inductive Val where
  | vStr : String → Val
  | vStrList : List String → Val
  | vBool : Bool → Val
  | vInt : Int → Val
  | vNone : Val
  | vList : List Item → Val
deriving DecidableEq, Repr

/-- Exceptions of the Python program: the uniform `ClientError` from the
errors module, or a raw exception coming out of the underlying SDK
(botocore/boto3), carrying the exception class name and message. -/
inductive PyErr where
  | clientError : String → PyErr
  | rawSdk : String → String → PyErr
deriving DecidableEq, Repr

/-- String rendering of an exception, as Python `str(error)` used in the log
message of `get_beanstalk_client`. -/
def errStr : PyErr → String
  | .clientError m => m
  | .rawSdk n m => n ++ ": " ++ m

/-- Whether an exception is the uniform client-error type. -/
def isClientError : PyErr → Bool
  | .clientError _ => true
  | .rawSdk _ _ => false

/-- One outbound AWS API call: the region of the client making it, the API
operation name, and the keyword-parameter dictionary passed to it. -/
structure AwsCall where
  region : String
  api : String
  params : List (String × Val)
deriving DecidableEq, Repr

/-- Observable side effects of running a tool: the outbound AWS calls made, in
order, and the log lines emitted (logger.error and ctx.error messages). -/
structure Effects where
  calls : List AwsCall
  logs : List String
deriving DecidableEq, Repr

/-- The ambient world: the `AWS_REGION` environment variable (`none` when
unset) and the AWS backend, an oracle mapping each outbound call to the
response dictionary it returns or the SDK exception it raises. -/
structure AwsEnv where
  aws_region : Option String
  respond : AwsCall → Except PyErr (List (String × Val))

/-- Python dictionary lookup `d.get(key)` on an association list. -/
def getKey : List (String × Val) → String → Option Val
  | [], _ => none
  | (k, v) :: rest, key => if key = k then some v else getKey rest key

/-- Python truthiness of an optional string parameter (default `None`):
`None` and the empty string are falsy. -/
def truthyStr : Option String → Bool
  | none => false
  | some s => s ≠ ""

/-- Python truthiness of an optional list parameter: `None` and `[]` are
falsy. -/
def truthyList : Option (List String) → Bool
  | none => false
  | some l => l ≠ []

/-- Python truthiness of an optional integer parameter: `None` and `0` are
falsy. -/
def truthyInt : Option Int → Bool
  | none => false
  | some n => n ≠ 0

/-- Modelled from the spec: the hardcoded default region from the consts
module, which is not under src/. The spec calls it the "hardcoded default
region"; the server docstring gives the value as "us-east-1". -/
def DEFAULT_REGION : String := "us-east-1"

/-- Region resolution, line 64 of server.py:
`region = region_name or environ.get("AWS_REGION", DEFAULT_REGION)`.
The first argument is the `region_name` parameter (`none` for `None`), the
second the `AWS_REGION` environment variable (`none` when unset). `environ.get`
falls back to the default only when the variable is unset; `or` falls through
on a falsy (None or empty) `region_name`. -/
def resolveRegion (region_name : Option String) (aws_region : Option String) : String :=
  match region_name with
  | some r => if r = "" then aws_region.getD DEFAULT_REGION else r
  | none => aws_region.getD DEFAULT_REGION

/-- Modelled from the spec: `handle_aws_api_error` from the errors module,
which is not under src/. Per the spec, underlying SDK exceptions are
"translated into one uniform client-error type carrying a human-readable
message". -/
def handle_aws_api_error (e : PyErr) : PyErr :=
  .clientError (errStr e)

/-- The boto3 Elastic Beanstalk client, characterised by the region it was
constructed with (the user-agent config does not affect observable
behaviour modelled here). -/
structure Client where
  region : String
deriving DecidableEq, Repr

/-- Embedding of `get_beanstalk_client` (server.py lines 45-79): resolves the
region, constructs the client, verifies credentials by issuing a
`describe_applications` call with no parameters, and on any exception
translates it via `handle_aws_api_error`, logs it, and raises the translated
error. Returns the effect trace together with the client or the raised
exception. -/
def get_beanstalk_client (env : AwsEnv) (region_name : Option String) :
    Effects × Except PyErr Client :=
  let region := resolveRegion region_name env.aws_region
  let verifyCall : AwsCall := ⟨region, "describe_applications", []⟩
  match env.respond verifyCall with
  | .ok _ => (⟨[verifyCall], []⟩, .ok ⟨region⟩)
  | .error e =>
    let error := handle_aws_api_error e
    (⟨[verifyCall], ["Error creating Elastic Beanstalk client: " ++ errStr error]⟩,
      .error error)

/-- Modelled from the spec: the `handle_exceptions` decorator from the common
module, which is not under src/. Per the spec, SDK exceptions are caught "at
each tool boundary, translated into one uniform client-error type carrying a
human-readable message, and logged before re-raise". -/
def handle_exceptions {A : Type} : Effects × Except PyErr A → Effects × Except PyErr A
  | (eff, .ok a) => (eff, .ok a)
  | (eff, .error e) =>
    let err := handle_aws_api_error e
    (⟨eff.calls, eff.logs ++ [errStr err]⟩, .error err)

/-- Conditional insertion of an optional string parameter:
`if p: params[key] = p`. -/
def strParam (k : String) : Option String → List (String × Val)
  | none => []
  | some s => if s = "" then [] else [(k, Val.vStr s)]

/-- Conditional insertion of an optional string-list parameter:
`if p: params[key] = p`. -/
def listParam (k : String) : Option (List String) → List (String × Val)
  | none => []
  | some l => if l = [] then [] else [(k, Val.vStrList l)]

/-- Conditional insertion of an optional integer parameter:
`if p: params[key] = p`. -/
def intParam (k : String) : Option Int → List (String × Val)
  | none => []
  | some n => if n = 0 then [] else [(k, Val.vInt n)]

/-- Conditional insertion of a boolean parameter: `if p: params[key] = p`. -/
def boolParam (k : String) (b : Bool) : List (String × Val) :=
  if b then [(k, Val.vBool b)] else []

/-- Parameter dictionary built by `describe_environments`
(server.py lines 109-117). -/
def describe_environments_params (application_name : Option String)
    (environment_names environment_ids : Option (List String))
    (include_deleted : Bool) : List (String × Val) :=
  strParam "ApplicationName" application_name
    ++ listParam "EnvironmentNames" environment_names
    ++ listParam "EnvironmentIds" environment_ids
    ++ boolParam "IncludeDeleted" include_deleted

/-- Parameter dictionary built by `describe_applications`
(server.py lines 142-144). -/
def describe_applications_params (application_names : Option (List String)) :
    List (String × Val) :=
  listParam "ApplicationNames" application_names

/-- Parameter dictionary built by `describe_events`
(server.py lines 176-190). -/
def describe_events_params (application_name environment_name environment_id
    start_time end_time : Option String) (max_records : Option Int)
    (severity : Option String) : List (String × Val) :=
  strParam "ApplicationName" application_name
    ++ strParam "EnvironmentName" environment_name
    ++ strParam "EnvironmentId" environment_id
    ++ strParam "StartTime" start_time
    ++ strParam "EndTime" end_time
    ++ intParam "MaxRecords" max_records
    ++ strParam "Severity" severity

/-- Parameter dictionary built by `describe_config_settings`
(server.py lines 228-233): `ApplicationName` always, then `EnvironmentName`
if truthy, elif `TemplateName` if truthy. -/
def describe_config_settings_params (application_name : String)
    (environment_name template_name : Option String) : List (String × Val) :=
  ("ApplicationName", Val.vStr application_name) ::
    (if truthyStr environment_name then
      [("EnvironmentName", Val.vStr (environment_name.getD ""))]
    else if truthyStr template_name then
      [("TemplateName", Val.vStr (template_name.getD ""))]
    else [])

/-- Body of the `describe_environments` tool (server.py lines 84-124), before
the `handle_exceptions` decorator is applied. -/
def describe_environments_raw (env : AwsEnv) (application_name : Option String)
    (environment_names environment_ids : Option (List String))
    (include_deleted : Bool) (region_name : Option String) :
    Effects × Except PyErr (List (String × Val)) :=
  match get_beanstalk_client env region_name with
  | (eff, .error e) => (eff, .error e)
  | (eff, .ok client) =>
    let params := describe_environments_params application_name
      environment_names environment_ids include_deleted
    let call : AwsCall := ⟨client.region, "describe_environments", params⟩
    match env.respond call with
    | .error e => (⟨eff.calls ++ [call], eff.logs⟩, .error e)
    | .ok response =>
      (⟨eff.calls ++ [call], eff.logs⟩,
        .ok [("Environments", (getKey response "Environments").getD (Val.vList [])),
          ("NextToken", (getKey response "NextToken").getD Val.vNone)])

/-- The `describe_environments` tool as exposed: the body wrapped by the
`handle_exceptions` decorator. -/
def describe_environments (env : AwsEnv) (application_name : Option String)
    (environment_names environment_ids : Option (List String))
    (include_deleted : Bool) (region_name : Option String) :
    Effects × Except PyErr (List (String × Val)) :=
  handle_exceptions (describe_environments_raw env application_name
    environment_names environment_ids include_deleted region_name)

/-- Body of the `describe_applications` tool (server.py lines 129-148), before
the `handle_exceptions` decorator is applied. -/
def describe_applications_raw (env : AwsEnv)
    (application_names : Option (List String)) (region_name : Option String) :
    Effects × Except PyErr (List (String × Val)) :=
  match get_beanstalk_client env region_name with
  | (eff, .error e) => (eff, .error e)
  | (eff, .ok client) =>
    let params := describe_applications_params application_names
    let call : AwsCall := ⟨client.region, "describe_applications", params⟩
    match env.respond call with
    | .error e => (⟨eff.calls ++ [call], eff.logs⟩, .error e)
    | .ok response =>
      (⟨eff.calls ++ [call], eff.logs⟩,
        .ok [("Applications", (getKey response "Applications").getD (Val.vList []))])

/-- The `describe_applications` tool as exposed: the body wrapped by the
`handle_exceptions` decorator. -/
def describe_applications (env : AwsEnv)
    (application_names : Option (List String)) (region_name : Option String) :
    Effects × Except PyErr (List (String × Val)) :=
  handle_exceptions (describe_applications_raw env application_names region_name)

/-- Body of the `describe_events` tool (server.py lines 153-194), before the
`handle_exceptions` decorator is applied. -/
def describe_events_raw (env : AwsEnv) (application_name environment_name
    environment_id start_time end_time : Option String)
    (max_records : Option Int) (severity region_name : Option String) :
    Effects × Except PyErr (List (String × Val)) :=
  match get_beanstalk_client env region_name with
  | (eff, .error e) => (eff, .error e)
  | (eff, .ok client) =>
    let params := describe_events_params application_name environment_name
      environment_id start_time end_time max_records severity
    let call : AwsCall := ⟨client.region, "describe_events", params⟩
    match env.respond call with
    | .error e => (⟨eff.calls ++ [call], eff.logs⟩, .error e)
    | .ok response =>
      (⟨eff.calls ++ [call], eff.logs⟩,
        .ok [("Events", (getKey response "Events").getD (Val.vList [])),
          ("NextToken", (getKey response "NextToken").getD Val.vNone)])

/-- The `describe_events` tool as exposed: the body wrapped by the
`handle_exceptions` decorator. -/
def describe_events (env : AwsEnv) (application_name environment_name
    environment_id start_time end_time : Option String)
    (max_records : Option Int) (severity region_name : Option String) :
    Effects × Except PyErr (List (String × Val)) :=
  handle_exceptions (describe_events_raw env application_name environment_name
    environment_id start_time end_time max_records severity region_name)

/-- Error message raised by `describe_config_settings` when neither
`environment_name` nor `template_name` is truthy (server.py line 224). -/
def missingParamMsg : String :=
  "Either environment_name or template_name must be provided"

/-- Body of the `describe_config_settings` tool (server.py lines 199-237),
before the `handle_exceptions` decorator is applied. The client is constructed
first; then, if neither `environment_name` nor `template_name` is truthy, the
message is reported via `ctx.error` (modelled as a log line) and `ClientError`
is raised; otherwise the parameter dictionary is built and the call made. -/
def describe_config_settings_raw (env : AwsEnv) (application_name : String)
    (environment_name template_name region_name : Option String) :
    Effects × Except PyErr (List (String × Val)) :=
  match get_beanstalk_client env region_name with
  | (eff, .error e) => (eff, .error e)
  | (eff, .ok client) =>
    if !truthyStr environment_name && !truthyStr template_name then
      (⟨eff.calls, eff.logs ++ [missingParamMsg]⟩,
        .error (.clientError missingParamMsg))
    else
      let params := describe_config_settings_params application_name
        environment_name template_name
      let call : AwsCall := ⟨client.region, "describe_configuration_settings", params⟩
      match env.respond call with
      | .error e => (⟨eff.calls ++ [call], eff.logs⟩, .error e)
      | .ok response =>
        (⟨eff.calls ++ [call], eff.logs⟩,
          .ok [("ConfigurationSettings",
            (getKey response "ConfigurationSettings").getD (Val.vList []))])

/-- The `describe_config_settings` tool as exposed: the body wrapped by the
`handle_exceptions` decorator. -/
def describe_config_settings (env : AwsEnv) (application_name : String)
    (environment_name template_name region_name : Option String) :
    Effects × Except PyErr (List (String × Val)) :=
  handle_exceptions (describe_config_settings_raw env application_name
    environment_name template_name region_name)

/-- Python `bool(s)` on a string: false exactly for the empty string. This is
what `argparse` with `type=bool` applies to the argument text of the flag. -/
def pyBoolOfStr (s : String) : Bool := s ≠ ""

/-- Parsed command-line arguments of the entry point: the single `--readonly`
flag (server.py line 246, `type=bool, default=False`). -/
structure Args where
  readonly : Bool
deriving DecidableEq, Repr

/-- Embedding of the argparse configuration of `main` (server.py lines
245-247): the argument is `none` when `--readonly` is not given on the command
line (so the default `False` applies) and `some s` when given with argument
text `s` (converted by `type=bool`, i.e. Python `bool(s)`). -/
def parse_args (readonlyArg : Option String) : Args :=
  ⟨match readonlyArg with
    | none => false
    | some s => pyBoolOfStr s⟩

/-- The global context holding the read-only mode flag. -/
structure Context where
  readonly_mode : Bool
deriving DecidableEq, Repr

/-- Modelled from the spec: `Context.initialize` from the context module,
which is not under src/. Per the spec it sets "a global read-only mode flag
consulted by (unshown) mutating tools". -/
def Context.initialize (readonly_mode : Bool) : Context :=
  ⟨readonly_mode⟩

/-- Embedding of `main` (server.py lines 240-252): parses the command line and
initializes the global context with the parsed `--readonly` value. -/
def main (readonlyArg : Option String) : Context :=
  Context.initialize (parse_args readonlyArg).readonly

/-- Whether a tool outcome is either a success or the uniform client-error
type (never a raw SDK exception). -/
def resultUniform {A : Type} : Except PyErr A → Bool
  | .ok _ => true
  | .error e => isClientError e

/-- Whether a tool outcome that is an exception was preceded by at least one
log line. -/
def errorImpliesLogged {A : Type} : Effects × Except PyErr A → Bool
  | (_, .ok _) => true
  | (eff, .error _) => !eff.logs.isEmpty

/-- A concrete AWS backend for witnesses: no `AWS_REGION` set, and every call
succeeds with a fixed response dictionary. -/
def envOk : AwsEnv :=
  ⟨none, fun _ => .ok
    [("Applications", Val.vList [⟨"app1"⟩, ⟨"app2"⟩]),
      ("Environments", Val.vList [⟨"env1"⟩]),
      ("Events", Val.vList []),
      ("ConfigurationSettings", Val.vList [⟨"cs1"⟩]),
      ("NextToken", Val.vStr "tok")]⟩

/-- A concrete AWS backend for witnesses: `AWS_REGION` set, and every call
raises a raw SDK exception. -/
def envErr : AwsEnv :=
  ⟨some "eu-central-1",
    fun _ => .error (.rawSdk "NoCredentialsError" "Unable to locate credentials")⟩

/-- The credential-verification call issued by `get_beanstalk_client` in a
given world with a given `region_name` parameter: a `describe_applications`
call with an empty parameter dictionary. -/
def verifyCall (env : AwsEnv) (rn : Option String) : AwsCall :=
  ⟨resolveRegion rn env.aws_region, "describe_applications", []⟩

theorem getKey_append_none {xs ys : List (String × Val)} {k : String}
    (h1 : getKey xs k = none) (h2 : getKey ys k = none) :
    getKey (xs ++ ys) k = none := by
  induction xs with
  | nil => simpa using h2
  | cons p rest ih =>
    obtain ⟨k2, v⟩ := p
    by_cases hk : k = k2
    · simp [getKey, hk] at h1
    · simp only [List.cons_append, getKey, if_neg hk] at h1 ⊢
      exact ih h1

theorem getKey_strParam_ne {k k2 : String} (o : Option String) (h : k ≠ k2) :
    getKey (strParam k2 o) k = none := by
  cases o with
  | none => rfl
  | some s => by_cases hs : s = "" <;> simp [strParam, hs, getKey, h]

theorem getKey_listParam_ne {k k2 : String} (o : Option (List String)) (h : k ≠ k2) :
    getKey (listParam k2 o) k = none := by
  cases o with
  | none => rfl
  | some l => by_cases hl : l = [] <;> simp [listParam, hl, getKey, h]

theorem getKey_intParam_ne {k k2 : String} (o : Option Int) (h : k ≠ k2) :
    getKey (intParam k2 o) k = none := by
  cases o with
  | none => rfl
  | some n => by_cases hn : n = 0 <;> simp [intParam, hn, getKey, h]

theorem getKey_boolParam_ne {k k2 : String} (b : Bool) (h : k ≠ k2) :
    getKey (boolParam k2 b) k = none := by
  cases b <;> simp [boolParam, getKey, h]

theorem getKey_strParam_falsy {k k2 : String} {o : Option String}
    (h : truthyStr o = false) : getKey (strParam k2 o) k = none := by
  cases o with
  | none => rfl
  | some s =>
    simp [truthyStr] at h
    simp [strParam, h, getKey]

theorem getKey_listParam_falsy {k k2 : String} {o : Option (List String)}
    (h : truthyList o = false) : getKey (listParam k2 o) k = none := by
  cases o with
  | none => rfl
  | some l =>
    simp [truthyList] at h
    simp [listParam, h, getKey]

theorem getKey_intParam_falsy {k k2 : String} {o : Option Int}
    (h : truthyInt o = false) : getKey (intParam k2 o) k = none := by
  cases o with
  | none => rfl
  | some n =>
    simp [truthyInt] at h
    simp [intParam, h, getKey]

theorem getKey_boolParam_false {k k2 : String} :
    getKey (boolParam k2 false) k = none := rfl

theorem handle_exceptions_calls {A : Type} (r : Effects × Except PyErr A) :
    (handle_exceptions r).1.calls = r.1.calls := by
  obtain ⟨eff, x⟩ := r
  cases x <;> rfl

theorem handle_exceptions_safe {A : Type} (r : Effects × Except PyErr A) :
    resultUniform (handle_exceptions r).2 = true ∧
    errorImpliesLogged (handle_exceptions r) = true := by
  obtain ⟨eff, x⟩ := r
  cases x with
  | ok a => exact ⟨rfl, rfl⟩
  | error e =>
    refine ⟨rfl, ?_⟩
    simp [handle_exceptions, errorImpliesLogged]

theorem handle_exceptions_ok_iff {A : Type} (eff : Effects) (x : Except PyErr A)
    (a : A) : (handle_exceptions (eff, x)).2 = .ok a ↔ x = .ok a := by
  cases x <;> simp [handle_exceptions]

theorem get_beanstalk_client_spec (env : AwsEnv) (rn : Option String) :
    (∃ resp, env.respond (verifyCall env rn) = .ok resp ∧
      get_beanstalk_client env rn =
        (⟨[verifyCall env rn], []⟩, .ok ⟨resolveRegion rn env.aws_region⟩)) ∨
    (∃ e, env.respond (verifyCall env rn) = .error e ∧
      get_beanstalk_client env rn =
        (⟨[verifyCall env rn],
          ["Error creating Elastic Beanstalk client: " ++
            errStr (handle_aws_api_error e)]⟩,
          .error (handle_aws_api_error e))) := by
  simp only [get_beanstalk_client, verifyCall]
  cases h : env.respond ⟨resolveRegion rn env.aws_region, "describe_applications", []⟩ with
  | ok resp => exact Or.inl ⟨resp, rfl, rfl⟩
  | error e => exact Or.inr ⟨e, rfl, rfl⟩

theorem describe_environments_calls_cases (env : AwsEnv) (an : Option String)
    (ens eids : Option (List String)) (incl : Bool) (rn : Option String) :
    (describe_environments env an ens eids incl rn).1.calls = [verifyCall env rn] ∨
    (describe_environments env an ens eids incl rn).1.calls =
      [verifyCall env rn,
        ⟨resolveRegion rn env.aws_region, "describe_environments",
          describe_environments_params an ens eids incl⟩] := by
  unfold describe_environments
  rw [handle_exceptions_calls]
  unfold describe_environments_raw
  rcases get_beanstalk_client_spec env rn with ⟨resp, _, heq⟩ | ⟨e, _, heq⟩ <;>
    rw [heq] <;> dsimp only
  · split <;> exact Or.inr rfl
  · exact Or.inl rfl

theorem describe_applications_calls_cases (env : AwsEnv)
    (ans : Option (List String)) (rn : Option String) :
    (describe_applications env ans rn).1.calls = [verifyCall env rn] ∨
    (describe_applications env ans rn).1.calls =
      [verifyCall env rn,
        ⟨resolveRegion rn env.aws_region, "describe_applications",
          describe_applications_params ans⟩] := by
  unfold describe_applications
  rw [handle_exceptions_calls]
  unfold describe_applications_raw
  rcases get_beanstalk_client_spec env rn with ⟨resp, _, heq⟩ | ⟨e, _, heq⟩ <;>
    rw [heq] <;> dsimp only
  · split <;> exact Or.inr rfl
  · exact Or.inl rfl

theorem describe_events_calls_cases (env : AwsEnv) (an en eid st et : Option String)
    (mr : Option Int) (sev rn : Option String) :
    (describe_events env an en eid st et mr sev rn).1.calls = [verifyCall env rn] ∨
    (describe_events env an en eid st et mr sev rn).1.calls =
      [verifyCall env rn,
        ⟨resolveRegion rn env.aws_region, "describe_events",
          describe_events_params an en eid st et mr sev⟩] := by
  unfold describe_events
  rw [handle_exceptions_calls]
  unfold describe_events_raw
  rcases get_beanstalk_client_spec env rn with ⟨resp, _, heq⟩ | ⟨e, _, heq⟩ <;>
    rw [heq] <;> dsimp only
  · split <;> exact Or.inr rfl
  · exact Or.inl rfl

theorem describe_config_settings_calls_cases (env : AwsEnv) (app : String)
    (en tn rn : Option String) :
    (describe_config_settings env app en tn rn).1.calls = [verifyCall env rn] ∨
    (describe_config_settings env app en tn rn).1.calls =
      [verifyCall env rn,
        ⟨resolveRegion rn env.aws_region, "describe_configuration_settings",
          describe_config_settings_params app en tn⟩] := by
  unfold describe_config_settings
  rw [handle_exceptions_calls]
  unfold describe_config_settings_raw
  rcases get_beanstalk_client_spec env rn with ⟨resp, _, heq⟩ | ⟨e, _, heq⟩ <;>
    rw [heq] <;> dsimp only
  · split
    · exact Or.inl rfl
    · split <;> exact Or.inr rfl
  · exact Or.inl rfl

theorem calls_all_key_absent {calls : List AwsCall} {k : String} {v m : AwsCall}
    (hv : calls = [v] ∨ calls = [v, m])
    (h1 : getKey v.params k = none) (h2 : getKey m.params k = none) :
    (calls.all fun c => (getKey c.params k).isNone) = true := by
  rcases hv with h | h <;> subst h <;> simp [List.all, h1, h2]

theorem verifyCall_params_none (env : AwsEnv) (rn : Option String) (k : String) :
    getKey (verifyCall env rn).params k = none := rfl

theorem describe_config_settings_missing_calls (env : AwsEnv) (app : String)
    (en tn rn : Option String) (hen : truthyStr en = false)
    (htn : truthyStr tn = false) :
    (describe_config_settings env app en tn rn).1.calls = [verifyCall env rn] := by
  unfold describe_config_settings
  rw [handle_exceptions_calls]
  unfold describe_config_settings_raw
  rcases get_beanstalk_client_spec env rn with ⟨resp, _, heq⟩ | ⟨e, _, heq⟩
  · rw [heq]
    dsimp only
    rw [hen, htn]
    rfl
  · rw [heq]

theorem describe_config_settings_missing_error (env : AwsEnv) (app : String)
    (en tn rn : Option String) (resp : List (String × Val))
    (hok : env.respond (verifyCall env rn) = .ok resp)
    (hen : truthyStr en = false) (htn : truthyStr tn = false) :
    (describe_config_settings env app en tn rn).2 =
      .error (.clientError missingParamMsg) := by
  unfold describe_config_settings describe_config_settings_raw
  rcases get_beanstalk_client_spec env rn with ⟨resp2, h2, heq⟩ | ⟨e, h2, heq⟩
  · rw [heq]
    dsimp only
    rw [hen, htn]
    rfl
  · rw [h2] at hok
    exact Except.noConfusion hok

theorem dcs_params_TemplateName_none (app : String) (en : Option String) :
    getKey (describe_config_settings_params app en none) "TemplateName" = none := by
  have h1 : "TemplateName" ≠ "ApplicationName" := by decide
  have h2 : "TemplateName" ≠ "EnvironmentName" := by decide
  cases en with
  | none => simp [describe_config_settings_params, truthyStr, getKey, h1]
  | some s =>
    by_cases hs : s = "" <;>
      simp [describe_config_settings_params, truthyStr, hs, getKey, h1, h2]

theorem dcs_params_EnvironmentName_none (app : String) (tn : Option String) :
    getKey (describe_config_settings_params app none tn) "EnvironmentName" = none := by
  have h1 : "EnvironmentName" ≠ "ApplicationName" := by decide
  have h2 : "EnvironmentName" ≠ "TemplateName" := by decide
  cases tn with
  | none => simp [describe_config_settings_params, truthyStr, getKey, h1]
  | some s =>
    by_cases hs : s = "" <;>
      simp [describe_config_settings_params, truthyStr, hs, getKey, h1, h2]

/-- Claim C2: for every world and all arguments, each of the four tools either
succeeds or raises the uniform client-error type — never a raw SDK exception
type — and whenever an exception is raised at a tool boundary or at the
client-construction boundary, a log line was emitted before it was raised. -/
theorem claim_C2 (env : AwsEnv) (an en eid st et sev rn tn : Option String)
    (ens eids ans : Option (List String)) (incl : Bool) (mr : Option Int)
    (app : String) :
    resultUniform (describe_environments env an ens eids incl rn).2 = true ∧
    errorImpliesLogged (describe_environments env an ens eids incl rn) = true ∧
    resultUniform (describe_applications env ans rn).2 = true ∧
    errorImpliesLogged (describe_applications env ans rn) = true ∧
    resultUniform (describe_events env an en eid st et mr sev rn).2 = true ∧
    errorImpliesLogged (describe_events env an en eid st et mr sev rn) = true ∧
    resultUniform (describe_config_settings env app en tn rn).2 = true ∧
    errorImpliesLogged (describe_config_settings env app en tn rn) = true ∧
    resultUniform (get_beanstalk_client env rn).2 = true ∧
    errorImpliesLogged (get_beanstalk_client env rn) = true := by
  simp only [describe_environments, describe_applications, describe_events,
    describe_config_settings]
  refine ⟨(handle_exceptions_safe _).1, (handle_exceptions_safe _).2,
    (handle_exceptions_safe _).1, (handle_exceptions_safe _).2,
    (handle_exceptions_safe _).1, (handle_exceptions_safe _).2,
    (handle_exceptions_safe _).1, (handle_exceptions_safe _).2, ?_, ?_⟩
  · rcases get_beanstalk_client_spec env rn with ⟨resp, _, heq⟩ | ⟨e, _, heq⟩ <;>
      rw [heq] <;> rfl
  · rcases get_beanstalk_client_spec env rn with ⟨resp, _, heq⟩ | ⟨e, _, heq⟩ <;>
      rw [heq] <;> rfl

/-- Claim C5: region resolution follows the precedence explicit parameter,
then the AWS_REGION environment variable, then the hardcoded default; in
particular the client constructed with no explicit region and no AWS_REGION
carries the hardcoded default region. -/
theorem claim_C5 :
    (∀ r aws, r ≠ "" → resolveRegion (some r) aws = r) ∧
    (∀ v, resolveRegion none (some v) = v) ∧
    resolveRegion none none = DEFAULT_REGION ∧
    (∀ env rn c, (get_beanstalk_client env rn).2 = .ok c →
      c.region = resolveRegion rn env.aws_region) ∧
    (∀ env c, env.aws_region = none →
      (get_beanstalk_client env none).2 = .ok c → c.region = DEFAULT_REGION) := by
  refine ⟨fun r aws h => by simp [resolveRegion, h], fun v => rfl, rfl, ?_, ?_⟩
  · intro env rn c h
    rcases get_beanstalk_client_spec env rn with ⟨resp, _, heq⟩ | ⟨e, _, heq⟩ <;>
      rw [heq] at h <;> dsimp only at h
    · injection h with h2
      rw [← h2]
    · exact Except.noConfusion h
  · intro env c hnone h
    rcases get_beanstalk_client_spec env none with ⟨resp, _, heq⟩ | ⟨e, _, heq⟩ <;>
      rw [heq] at h <;> dsimp only at h
    · injection h with h2
      rw [← h2]
      show resolveRegion none env.aws_region = DEFAULT_REGION
      rw [hnone]
      rfl
    · exact Except.noConfusion h

/-- Witness for claim C5: an explicit region wins over a set AWS_REGION, and
with neither set the client built by `get_beanstalk_client` carries the
hardcoded default region. -/
theorem claim_C5_witness :
    resolveRegion (some "eu-west-1") (some "us-west-2") = "eu-west-1" ∧
    (Client.mk "us-east-1").region = DEFAULT_REGION :=
  ⟨claim_C5.1 "eu-west-1" (some "us-west-2") (by decide),
    claim_C5.2.2.2.2 envOk ⟨"us-east-1"⟩ rfl rfl⟩

/-- Claim C8: the entry point parses the single --readonly flag as a boolean
defaulting to false and initializes the global context read-only mode with the
parsed value; with the flag absent the mode is false. -/
theorem claim_C8 :
    main none = ⟨false⟩ ∧
    (parse_args none).readonly = false ∧
    (∀ a, (main a).readonly_mode = (parse_args a).readonly) ∧
    (∀ s, (parse_args (some s)).readonly = pyBoolOfStr s) :=
  ⟨rfl, rfl, fun _ => rfl, fun _ => rfl⟩

/-- Counterexample to claim C1 as stated: with a backend that always succeeds,
calling describe_config_settings with both environment_name and template_name
absent does raise the uniform ClientError, but an outbound AWS API call (the
credential-verification describe_applications call made during client
construction) is made on that code path — the call trace is the nonempty list
holding that call, contradicting "no outbound AWS API call is made". -/
theorem claim_C1_counterexample :
    (describe_config_settings envOk "my-app" none none none).2 =
      .error (.clientError missingParamMsg) ∧
    (describe_config_settings envOk "my-app" none none none).1.calls =
      [⟨DEFAULT_REGION, "describe_applications", []⟩] ∧
    (describe_config_settings envOk "my-app" none none none).1.calls ≠ [] := by
  refine ⟨rfl, rfl, ?_⟩
  rw [describe_config_settings_missing_calls envOk "my-app" none none none rfl rfl]
  simp

/-- Claim C1 as amended: for every world, application name and region, calling
describe_config_settings with both environment_name and template_name absent
raises the uniform client-error type, and the tool-specific outbound call
(describe_configuration_settings) is never made on that path; however, client
construction does contact AWS first, so the first (and only) outbound call of
the trace is the credential-verification describe_applications call. -/
theorem claim_C1_amended (env : AwsEnv) (app : String) (rn : Option String) :
    (∃ m, (describe_config_settings env app none none rn).2 =
      .error (.clientError m)) ∧
    (describe_config_settings env app none none rn).1.calls = [verifyCall env rn] ∧
    ((describe_config_settings env app none none rn).1.calls.all
      fun c => c.api != "describe_configuration_settings") = true := by
  have hcalls := describe_config_settings_missing_calls env app none none rn rfl rfl
  refine ⟨?_, hcalls, ?_⟩
  · unfold describe_config_settings describe_config_settings_raw
    rcases get_beanstalk_client_spec env rn with ⟨resp, h2, heq⟩ | ⟨e, h2, heq⟩
    · rw [heq]
      dsimp only
      exact ⟨missingParamMsg, rfl⟩
    · rw [heq]
      dsimp only
      exact ⟨errStr e, rfl⟩
  · rw [hcalls]
    rfl

/-- Claim C4: when both environment_name and template_name are supplied
non-empty, every outbound describe_configuration_settings call carries the
EnvironmentName key (with the supplied environment name) and not the
TemplateName key: environment_name is preferred and only one of the two keys
is set. -/
theorem claim_C4 (env : AwsEnv) (app e t : String) (rn : Option String)
    (he : e ≠ "") (ht : t ≠ "") :
    ((describe_config_settings env app (some e) (some t) rn).1.calls.all
      fun c => (c.api != "describe_configuration_settings") ||
        ((getKey c.params "EnvironmentName" == some (Val.vStr e)) &&
          (getKey c.params "TemplateName" == none))) = true := by
  have hparams : describe_config_settings_params app (some e) (some t) =
      [("ApplicationName", Val.vStr app), ("EnvironmentName", Val.vStr e)] := by
    simp [describe_config_settings_params, truthyStr, he]
  have h1 : "EnvironmentName" ≠ "ApplicationName" := by decide
  have h2 : "TemplateName" ≠ "ApplicationName" := by decide
  have h3 : "TemplateName" ≠ "EnvironmentName" := by decide
  rcases describe_config_settings_calls_cases env app (some e) (some t) rn with h | h <;>
    rw [h]
  · rfl
  · rw [hparams]
    simp [getKey, h1, h2, h3]
    simp [verifyCall]

/-- Witness for claim C4 at a concrete input: with both names supplied, the
single describe_configuration_settings call in the trace carries
EnvironmentName and not TemplateName. -/
theorem claim_C4_witness :
    ((describe_config_settings envOk "a" (some "e-name") (some "t-name") none).1.calls.all
      fun c => (c.api != "describe_configuration_settings") ||
        ((getKey c.params "EnvironmentName" == some (Val.vStr "e-name")) &&
          (getKey c.params "TemplateName" == none))) = true :=
  claim_C4 envOk "a" "e-name" "t-name" none (by decide) (by decide)

/-- Claim C3: for each of the four tools, every optional filter parameter the
caller omits is absent as a key from the parameter dictionary of every
outbound AWS call the tool makes (sparse-parameter construction). One clause
per optional filter of each tool, with all other arguments arbitrary. -/
theorem claim_C3 :
    (∀ (env : AwsEnv) (ens eids : Option (List String)) (incl : Bool)
      (rn : Option String),
      ((describe_environments env none ens eids incl rn).1.calls.all
        fun c => (getKey c.params "ApplicationName").isNone) = true) ∧
    (∀ (env : AwsEnv) (an : Option String) (eids : Option (List String))
      (incl : Bool) (rn : Option String),
      ((describe_environments env an none eids incl rn).1.calls.all
        fun c => (getKey c.params "EnvironmentNames").isNone) = true) ∧
    (∀ (env : AwsEnv) (an : Option String) (ens : Option (List String))
      (incl : Bool) (rn : Option String),
      ((describe_environments env an ens none incl rn).1.calls.all
        fun c => (getKey c.params "EnvironmentIds").isNone) = true) ∧
    (∀ (env : AwsEnv) (an : Option String) (ens eids : Option (List String))
      (rn : Option String),
      ((describe_environments env an ens eids false rn).1.calls.all
        fun c => (getKey c.params "IncludeDeleted").isNone) = true) ∧
    (∀ (env : AwsEnv) (rn : Option String),
      ((describe_applications env none rn).1.calls.all
        fun c => (getKey c.params "ApplicationNames").isNone) = true) ∧
    (∀ (env : AwsEnv) (en eid st et : Option String) (mr : Option Int)
      (sev rn : Option String),
      ((describe_events env none en eid st et mr sev rn).1.calls.all
        fun c => (getKey c.params "ApplicationName").isNone) = true) ∧
    (∀ (env : AwsEnv) (an eid st et : Option String) (mr : Option Int)
      (sev rn : Option String),
      ((describe_events env an none eid st et mr sev rn).1.calls.all
        fun c => (getKey c.params "EnvironmentName").isNone) = true) ∧
    (∀ (env : AwsEnv) (an en st et : Option String) (mr : Option Int)
      (sev rn : Option String),
      ((describe_events env an en none st et mr sev rn).1.calls.all
        fun c => (getKey c.params "EnvironmentId").isNone) = true) ∧
    (∀ (env : AwsEnv) (an en eid et : Option String) (mr : Option Int)
      (sev rn : Option String),
      ((describe_events env an en eid none et mr sev rn).1.calls.all
        fun c => (getKey c.params "StartTime").isNone) = true) ∧
    (∀ (env : AwsEnv) (an en eid st : Option String) (mr : Option Int)
      (sev rn : Option String),
      ((describe_events env an en eid st none mr sev rn).1.calls.all
        fun c => (getKey c.params "EndTime").isNone) = true) ∧
    (∀ (env : AwsEnv) (an en eid st et sev rn : Option String),
      ((describe_events env an en eid st et none sev rn).1.calls.all
        fun c => (getKey c.params "MaxRecords").isNone) = true) ∧
    (∀ (env : AwsEnv) (an en eid st et : Option String) (mr : Option Int)
      (rn : Option String),
      ((describe_events env an en eid st et mr none rn).1.calls.all
        fun c => (getKey c.params "Severity").isNone) = true) ∧
    (∀ (env : AwsEnv) (app : String) (en rn : Option String),
      ((describe_config_settings env app en none rn).1.calls.all
        fun c => (getKey c.params "TemplateName").isNone) = true) ∧
    (∀ (env : AwsEnv) (app : String) (tn rn : Option String),
      ((describe_config_settings env app none tn rn).1.calls.all
        fun c => (getKey c.params "EnvironmentName").isNone) = true) := by
  refine ⟨?_, ?_, ?_, ?_, ?_, ?_, ?_, ?_, ?_, ?_, ?_, ?_, ?_, ?_⟩
  · intro env ens eids incl rn
    exact calls_all_key_absent
      (describe_environments_calls_cases env none ens eids incl rn) rfl
      (getKey_append_none (getKey_append_none (getKey_append_none rfl
        (getKey_listParam_ne _ (by decide))) (getKey_listParam_ne _ (by decide)))
        (getKey_boolParam_ne _ (by decide)))
  · intro env an eids incl rn
    exact calls_all_key_absent
      (describe_environments_calls_cases env an none eids incl rn) rfl
      (getKey_append_none (getKey_append_none (getKey_append_none
        (getKey_strParam_ne _ (by decide)) rfl) (getKey_listParam_ne _ (by decide)))
        (getKey_boolParam_ne _ (by decide)))
  · intro env an ens incl rn
    exact calls_all_key_absent
      (describe_environments_calls_cases env an ens none incl rn) rfl
      (getKey_append_none (getKey_append_none (getKey_append_none
        (getKey_strParam_ne _ (by decide)) (getKey_listParam_ne _ (by decide))) rfl)
        (getKey_boolParam_ne _ (by decide)))
  · intro env an ens eids rn
    exact calls_all_key_absent
      (describe_environments_calls_cases env an ens eids false rn) rfl
      (getKey_append_none (getKey_append_none (getKey_append_none
        (getKey_strParam_ne _ (by decide)) (getKey_listParam_ne _ (by decide)))
        (getKey_listParam_ne _ (by decide))) rfl)
  · intro env rn
    exact calls_all_key_absent (describe_applications_calls_cases env none rn) rfl rfl
  · intro env en eid st et mr sev rn
    exact calls_all_key_absent
      (describe_events_calls_cases env none en eid st et mr sev rn) rfl
      (getKey_append_none (getKey_append_none (getKey_append_none
        (getKey_append_none (getKey_append_none (getKey_append_none rfl
        (getKey_strParam_ne _ (by decide))) (getKey_strParam_ne _ (by decide)))
        (getKey_strParam_ne _ (by decide))) (getKey_strParam_ne _ (by decide)))
        (getKey_intParam_ne _ (by decide))) (getKey_strParam_ne _ (by decide)))
  · intro env an eid st et mr sev rn
    exact calls_all_key_absent
      (describe_events_calls_cases env an none eid st et mr sev rn) rfl
      (getKey_append_none (getKey_append_none (getKey_append_none
        (getKey_append_none (getKey_append_none (getKey_append_none
        (getKey_strParam_ne _ (by decide)) rfl) (getKey_strParam_ne _ (by decide)))
        (getKey_strParam_ne _ (by decide))) (getKey_strParam_ne _ (by decide)))
        (getKey_intParam_ne _ (by decide))) (getKey_strParam_ne _ (by decide)))
  · intro env an en st et mr sev rn
    exact calls_all_key_absent
      (describe_events_calls_cases env an en none st et mr sev rn) rfl
      (getKey_append_none (getKey_append_none (getKey_append_none
        (getKey_append_none (getKey_append_none (getKey_append_none
        (getKey_strParam_ne _ (by decide)) (getKey_strParam_ne _ (by decide))) rfl)
        (getKey_strParam_ne _ (by decide))) (getKey_strParam_ne _ (by decide)))
        (getKey_intParam_ne _ (by decide))) (getKey_strParam_ne _ (by decide)))
  · intro env an en eid et mr sev rn
    exact calls_all_key_absent
      (describe_events_calls_cases env an en eid none et mr sev rn) rfl
      (getKey_append_none (getKey_append_none (getKey_append_none
        (getKey_append_none (getKey_append_none (getKey_append_none
        (getKey_strParam_ne _ (by decide)) (getKey_strParam_ne _ (by decide)))
        (getKey_strParam_ne _ (by decide))) rfl) (getKey_strParam_ne _ (by decide)))
        (getKey_intParam_ne _ (by decide))) (getKey_strParam_ne _ (by decide)))
  · intro env an en eid st mr sev rn
    exact calls_all_key_absent
      (describe_events_calls_cases env an en eid st none mr sev rn) rfl
      (getKey_append_none (getKey_append_none (getKey_append_none
        (getKey_append_none (getKey_append_none (getKey_append_none
        (getKey_strParam_ne _ (by decide)) (getKey_strParam_ne _ (by decide)))
        (getKey_strParam_ne _ (by decide))) (getKey_strParam_ne _ (by decide))) rfl)
        (getKey_intParam_ne _ (by decide))) (getKey_strParam_ne _ (by decide)))
  · intro env an en eid st et sev rn
    exact calls_all_key_absent
      (describe_events_calls_cases env an en eid st et none sev rn) rfl
      (getKey_append_none (getKey_append_none (getKey_append_none
        (getKey_append_none (getKey_append_none (getKey_append_none
        (getKey_strParam_ne _ (by decide)) (getKey_strParam_ne _ (by decide)))
        (getKey_strParam_ne _ (by decide))) (getKey_strParam_ne _ (by decide)))
        (getKey_strParam_ne _ (by decide))) rfl) (getKey_strParam_ne _ (by decide)))
  · intro env an en eid st et mr rn
    exact calls_all_key_absent
      (describe_events_calls_cases env an en eid st et mr none rn) rfl
      (getKey_append_none (getKey_append_none (getKey_append_none
        (getKey_append_none (getKey_append_none (getKey_append_none
        (getKey_strParam_ne _ (by decide)) (getKey_strParam_ne _ (by decide)))
        (getKey_strParam_ne _ (by decide))) (getKey_strParam_ne _ (by decide)))
        (getKey_strParam_ne _ (by decide))) (getKey_intParam_ne _ (by decide))) rfl)
  · intro env app en rn
    exact calls_all_key_absent
      (describe_config_settings_calls_cases env app en none rn) rfl
      (dcs_params_TemplateName_none app en)
  · intro env app tn rn
    exact calls_all_key_absent
      (describe_config_settings_calls_cases env app none tn rn) rfl
      (dcs_params_EnvironmentName_none app tn)

/-- Claim C6: calling describe_applications with no arguments does not raise:
the outbound describe_applications call carries an empty parameter dictionary
(no restriction on application names) and the result holds the full
Applications list of the AWS response. The trace is the verification call
followed by the tool call, both with empty parameters. -/
theorem claim_C6 (env : AwsEnv) (resp : List (String × Val)) (v : Val)
    (hresp : env.respond (verifyCall env none) = .ok resp)
    (happs : getKey resp "Applications" = some v) :
    (describe_applications env none none).2 = .ok [("Applications", v)] ∧
    (describe_applications env none none).1.calls =
      [verifyCall env none, verifyCall env none] := by
  unfold describe_applications describe_applications_raw
  rcases get_beanstalk_client_spec env none with ⟨resp2, h2, heq⟩ | ⟨e, h2, heq⟩
  · rw [heq]
    dsimp only
    have hcall : (⟨resolveRegion none env.aws_region, "describe_applications",
        describe_applications_params none⟩ : AwsCall) = verifyCall env none := rfl
    rw [hcall, hresp]
    dsimp only [handle_exceptions]
    rw [happs]
    exact ⟨rfl, rfl⟩
  · rw [h2] at hresp
    exact Except.noConfusion hresp

/-- Witness for claim C6 at a concrete world: no error, empty filter sent
twice, and the full Applications list returned. -/
theorem claim_C6_witness :
    (describe_applications envOk none none).2 =
      .ok [("Applications", Val.vList [⟨"app1"⟩, ⟨"app2"⟩])] ∧
    (describe_applications envOk none none).1.calls =
      [verifyCall envOk none, verifyCall envOk none] :=
  claim_C6 envOk _ _ rfl rfl

/-- Claim C7: every successful describe_environments call returns a dictionary
with exactly the keys Environments and NextToken, where Environments is the
Environments list of the AWS response (empty list when absent) and NextToken
is the NextToken of the response (None when absent). -/
theorem claim_C7 (env : AwsEnv) (an : Option String) (ens eids : Option (List String))
    (incl : Bool) (rn : Option String) (r : List (String × Val))
    (hok : (describe_environments env an ens eids incl rn).2 = .ok r) :
    ∃ resp, env.respond ⟨resolveRegion rn env.aws_region, "describe_environments",
        describe_environments_params an ens eids incl⟩ = .ok resp ∧
      r = [("Environments", (getKey resp "Environments").getD (Val.vList [])),
        ("NextToken", (getKey resp "NextToken").getD Val.vNone)] ∧
      r.map Prod.fst = ["Environments", "NextToken"] := by
  unfold describe_environments describe_environments_raw at hok
  rcases get_beanstalk_client_spec env rn with ⟨resp2, h2, heq⟩ | ⟨e, h2, heq⟩
  · rw [heq] at hok
    dsimp only at hok
    cases hm : env.respond ⟨resolveRegion rn env.aws_region, "describe_environments",
        describe_environments_params an ens eids incl⟩ with
    | ok resp =>
      rw [hm] at hok
      dsimp only [handle_exceptions] at hok
      injection hok with h3
      refine ⟨resp, rfl, h3.symm, ?_⟩
      rw [← h3]
      rfl
    | error e2 =>
      rw [hm] at hok
      dsimp only [handle_exceptions] at hok
      exact Except.noConfusion hok
  · rw [heq] at hok
    dsimp only [handle_exceptions] at hok
    exact Except.noConfusion hok

/-- Witness for claim C7 at a concrete world and input: the successful result
is exactly the two-key dictionary derived from the AWS response. -/
theorem claim_C7_witness :
    ∃ resp, envOk.respond ⟨resolveRegion none envOk.aws_region,
        "describe_environments",
        describe_environments_params none none none false⟩ = .ok resp ∧
      [("Environments", Val.vList [⟨"env1"⟩]), ("NextToken", Val.vStr "tok")] =
        [("Environments", (getKey resp "Environments").getD (Val.vList [])),
          ("NextToken", (getKey resp "NextToken").getD Val.vNone)] ∧
      ([("Environments", Val.vList [⟨"env1"⟩]),
        ("NextToken", Val.vStr "tok")] : List (String × Val)).map Prod.fst =
        ["Environments", "NextToken"] :=
  claim_C7 envOk none none none false none _ rfl

/-- Claim C9: get_beanstalk_client always issues exactly one credential
verification call (describe_applications); every tool invocation contacts AWS
during client construction as its first outbound call, before any
tool-specific validation (in particular describe_config_settings with both
names absent still makes it); and a failure of the verification call is
raised as the uniform ClientError after logging. -/
theorem claim_C9 :
    (∀ env rn, (get_beanstalk_client env rn).1.calls = [verifyCall env rn]) ∧
    (∀ env an ens eids incl rn,
      (describe_environments env an ens eids incl rn).1.calls.head? =
        some (verifyCall env rn)) ∧
    (∀ env ans rn,
      (describe_applications env ans rn).1.calls.head? = some (verifyCall env rn)) ∧
    (∀ env an en eid st et mr sev rn,
      (describe_events env an en eid st et mr sev rn).1.calls.head? =
        some (verifyCall env rn)) ∧
    (∀ env app en tn rn,
      (describe_config_settings env app en tn rn).1.calls.head? =
        some (verifyCall env rn)) ∧
    (∀ env app rn,
      (describe_config_settings env app none none rn).1.calls =
        [verifyCall env rn]) ∧
    (∀ env rn e, env.respond (verifyCall env rn) = .error e →
      (get_beanstalk_client env rn).2 = .error (handle_aws_api_error e) ∧
      isClientError (handle_aws_api_error e) = true ∧
      (get_beanstalk_client env rn).1.logs ≠ []) := by
  refine ⟨?_, ?_, ?_, ?_, ?_, ?_, ?_⟩
  · intro env rn
    rcases get_beanstalk_client_spec env rn with ⟨_, _, heq⟩ | ⟨_, _, heq⟩ <;>
      rw [heq]
  · intro env an ens eids incl rn
    rcases describe_environments_calls_cases env an ens eids incl rn with h | h <;>
      rw [h] <;> rfl
  · intro env ans rn
    rcases describe_applications_calls_cases env ans rn with h | h <;> rw [h] <;> rfl
  · intro env an en eid st et mr sev rn
    rcases describe_events_calls_cases env an en eid st et mr sev rn with h | h <;>
      rw [h] <;> rfl
  · intro env app en tn rn
    rcases describe_config_settings_calls_cases env app en tn rn with h | h <;>
      rw [h] <;> rfl
  · intro env app rn
    exact describe_config_settings_missing_calls env app none none rn rfl rfl
  · intro env rn e h
    rcases get_beanstalk_client_spec env rn with ⟨resp, h2, heq⟩ | ⟨e2, h2, heq⟩
    · rw [h2] at h
      exact Except.noConfusion h
    · rw [h2] at h
      injection h with h3
      subst h3
      rw [heq]
      exact ⟨rfl, rfl, by simp⟩

/-- Witness for claim C9 at a concrete failing world: the construction error
surfaces as the uniform ClientError and a log line was emitted. -/
theorem claim_C9_witness :
    (get_beanstalk_client envErr none).2 =
      .error (handle_aws_api_error
        (.rawSdk "NoCredentialsError" "Unable to locate credentials")) ∧
    isClientError (handle_aws_api_error
      (.rawSdk "NoCredentialsError" "Unable to locate credentials")) = true ∧
    (get_beanstalk_client envErr none).1.logs ≠ [] :=
  claim_C9.2.2.2.2.2.2 envErr none _ rfl

theorem dcs_params_EnvironmentName_falsy (app : String) (en tn : Option String)
    (hen : truthyStr en = false) :
    getKey (describe_config_settings_params app en tn) "EnvironmentName" = none := by
  have h1 : "EnvironmentName" ≠ "ApplicationName" := by decide
  have h2 : "EnvironmentName" ≠ "TemplateName" := by decide
  cases htr : truthyStr tn <;>
    simp [describe_config_settings_params, hen, htr, getKey, h1, h2]

theorem dcs_params_TemplateName_falsy (app : String) (en tn : Option String)
    (htn : truthyStr tn = false) :
    getKey (describe_config_settings_params app en tn) "TemplateName" = none := by
  have h1 : "TemplateName" ≠ "ApplicationName" := by decide
  have h2 : "TemplateName" ≠ "EnvironmentName" := by decide
  cases htr : truthyStr en <;>
    simp [describe_config_settings_params, htn, htr, getKey, h1, h2]

/-- Claim C10: for every tool, a filter parameter supplied with a falsy value
(empty string, empty list, zero, false) is treated exactly like an omitted
parameter. One key-absence clause per falsy filter of each of the four tools
(the key is absent from every outbound call), plus, for each such filter, the
stronger fact that the whole tool result equals the result of the call with
the parameter omitted; a region_name supplied as the empty string behaves
exactly like an absent region_name (at resolveRegion and at
get_beanstalk_client); and describe_config_settings with both names supplied
as empty strings raises the missing-parameter ClientError (given the client
construction succeeded). -/
theorem claim_C10 :
    (∀ env app rn resp, env.respond (verifyCall env rn) = .ok resp →
      (describe_config_settings env app (some "") (some "") rn).2 =
        .error (.clientError missingParamMsg)) ∧
    (∀ aws, resolveRegion (some "") aws = resolveRegion none aws) ∧
    (∀ env, get_beanstalk_client env (some "") = get_beanstalk_client env none) ∧
    (∀ (env : AwsEnv) (ens eids : Option (List String)) (incl : Bool)
      (rn : Option String),
      ((describe_environments env (some "") ens eids incl rn).1.calls.all
        fun c => (getKey c.params "ApplicationName").isNone) = true) ∧
    (∀ (env : AwsEnv) (an : Option String) (eids : Option (List String))
      (incl : Bool) (rn : Option String),
      ((describe_environments env an (some []) eids incl rn).1.calls.all
        fun c => (getKey c.params "EnvironmentNames").isNone) = true) ∧
    (∀ (env : AwsEnv) (an : Option String) (ens : Option (List String))
      (incl : Bool) (rn : Option String),
      ((describe_environments env an ens (some []) incl rn).1.calls.all
        fun c => (getKey c.params "EnvironmentIds").isNone) = true) ∧
    (∀ (env : AwsEnv) (an : Option String) (ens eids : Option (List String))
      (rn : Option String),
      ((describe_environments env an ens eids false rn).1.calls.all
        fun c => (getKey c.params "IncludeDeleted").isNone) = true) ∧
    (∀ (env : AwsEnv) (rn : Option String),
      ((describe_applications env (some []) rn).1.calls.all
        fun c => (getKey c.params "ApplicationNames").isNone) = true) ∧
    (∀ (env : AwsEnv) (en eid st et : Option String) (mr : Option Int) (sev rn : Option String),
      ((describe_events env (some "") en eid st et mr sev rn).1.calls.all
        fun c => (getKey c.params "ApplicationName").isNone) = true) ∧
    (∀ (env : AwsEnv) (an eid st et : Option String) (mr : Option Int) (sev rn : Option String),
      ((describe_events env an (some "") eid st et mr sev rn).1.calls.all
        fun c => (getKey c.params "EnvironmentName").isNone) = true) ∧
    (∀ (env : AwsEnv) (an en st et : Option String) (mr : Option Int) (sev rn : Option String),
      ((describe_events env an en (some "") st et mr sev rn).1.calls.all
        fun c => (getKey c.params "EnvironmentId").isNone) = true) ∧
    (∀ (env : AwsEnv) (an en eid et : Option String) (mr : Option Int) (sev rn : Option String),
      ((describe_events env an en eid (some "") et mr sev rn).1.calls.all
        fun c => (getKey c.params "StartTime").isNone) = true) ∧
    (∀ (env : AwsEnv) (an en eid st : Option String) (mr : Option Int) (sev rn : Option String),
      ((describe_events env an en eid st (some "") mr sev rn).1.calls.all
        fun c => (getKey c.params "EndTime").isNone) = true) ∧
    (∀ (env : AwsEnv) (an en eid st et sev rn : Option String),
      ((describe_events env an en eid st et (some 0) sev rn).1.calls.all
        fun c => (getKey c.params "MaxRecords").isNone) = true) ∧
    (∀ (env : AwsEnv) (an en eid st et : Option String) (mr : Option Int) (rn : Option String),
      ((describe_events env an en eid st et mr (some "") rn).1.calls.all
        fun c => (getKey c.params "Severity").isNone) = true) ∧
    (∀ (env : AwsEnv) (app : String) (tn rn : Option String),
      ((describe_config_settings env app (some "") tn rn).1.calls.all
        fun c => (getKey c.params "EnvironmentName").isNone) = true) ∧
    (∀ (env : AwsEnv) (app : String) (en rn : Option String),
      ((describe_config_settings env app en (some "") rn).1.calls.all
        fun c => (getKey c.params "TemplateName").isNone) = true) ∧
    (∀ env (ens eids : Option (List String)) (incl : Bool) (rn : Option String),
      describe_environments env (some "") ens eids incl rn =
        describe_environments env none ens eids incl rn) ∧
    (∀ env (an : Option String) (eids : Option (List String)) (incl : Bool)
      (rn : Option String),
      describe_environments env an (some []) eids incl rn =
        describe_environments env an none eids incl rn) ∧
    (∀ env (an : Option String) (ens : Option (List String)) (incl : Bool)
      (rn : Option String),
      describe_environments env an ens (some []) incl rn =
        describe_environments env an ens none incl rn) ∧
    (∀ env (rn : Option String),
      describe_applications env (some []) rn = describe_applications env none rn) ∧
    (∀ env (en eid st et : Option String) (mr : Option Int) (sev rn : Option String),
      describe_events env (some "") en eid st et mr sev rn =
        describe_events env none en eid st et mr sev rn) ∧
    (∀ env (an eid st et : Option String) (mr : Option Int) (sev rn : Option String),
      describe_events env an (some "") eid st et mr sev rn =
        describe_events env an none eid st et mr sev rn) ∧
    (∀ env (an en st et : Option String) (mr : Option Int) (sev rn : Option String),
      describe_events env an en (some "") st et mr sev rn =
        describe_events env an en none st et mr sev rn) ∧
    (∀ env (an en eid et : Option String) (mr : Option Int) (sev rn : Option String),
      describe_events env an en eid (some "") et mr sev rn =
        describe_events env an en eid none et mr sev rn) ∧
    (∀ env (an en eid st : Option String) (mr : Option Int) (sev rn : Option String),
      describe_events env an en eid st (some "") mr sev rn =
        describe_events env an en eid st none mr sev rn) ∧
    (∀ env (an en eid st et sev rn : Option String),
      describe_events env an en eid st et (some 0) sev rn =
        describe_events env an en eid st et none sev rn) ∧
    (∀ env (an en eid st et : Option String) (mr : Option Int) (rn : Option String),
      describe_events env an en eid st et mr (some "") rn =
        describe_events env an en eid st et mr none rn) ∧
    (∀ env (app : String) (tn rn : Option String),
      describe_config_settings env app (some "") tn rn =
        describe_config_settings env app none tn rn) ∧
    (∀ env (app : String) (en rn : Option String),
      describe_config_settings env app en (some "") rn =
        describe_config_settings env app en none rn) := by
  refine ⟨?_, fun aws => rfl, fun env => rfl, ?_, ?_, ?_, ?_, ?_, ?_, ?_, ?_, ?_, ?_, ?_, ?_, ?_, ?_, fun _ _ _ _ _ => rfl, fun _ _ _ _ _ => rfl, fun _ _ _ _ _ => rfl, fun _ _ => rfl, fun _ _ _ _ _ _ _ _ => rfl, fun _ _ _ _ _ _ _ _ => rfl, fun _ _ _ _ _ _ _ _ => rfl, fun _ _ _ _ _ _ _ _ => rfl, fun _ _ _ _ _ _ _ _ => rfl, fun _ _ _ _ _ _ _ _ => rfl, fun _ _ _ _ _ _ _ _ => rfl, fun _ _ _ _ => rfl, fun _ _ _ _ => rfl⟩
  · intro env app rn resp h
    exact describe_config_settings_missing_error env app (some "") (some "") rn
      resp h (by decide) (by decide)
  · intro env ens eids incl rn
    exact calls_all_key_absent
      (describe_environments_calls_cases env (some "") ens eids incl rn) rfl
      (getKey_append_none (getKey_append_none (getKey_append_none (getKey_strParam_falsy (by decide)) (getKey_listParam_ne _ (by decide))) (getKey_listParam_ne _ (by decide))) (getKey_boolParam_ne _ (by decide)))
  · intro env an eids incl rn
    exact calls_all_key_absent
      (describe_environments_calls_cases env an (some []) eids incl rn) rfl
      (getKey_append_none (getKey_append_none (getKey_append_none (getKey_strParam_ne _ (by decide)) (getKey_listParam_falsy (by decide))) (getKey_listParam_ne _ (by decide))) (getKey_boolParam_ne _ (by decide)))
  · intro env an ens incl rn
    exact calls_all_key_absent
      (describe_environments_calls_cases env an ens (some []) incl rn) rfl
      (getKey_append_none (getKey_append_none (getKey_append_none (getKey_strParam_ne _ (by decide)) (getKey_listParam_ne _ (by decide))) (getKey_listParam_falsy (by decide))) (getKey_boolParam_ne _ (by decide)))
  · intro env an ens eids rn
    exact calls_all_key_absent
      (describe_environments_calls_cases env an ens eids false rn) rfl
      (getKey_append_none (getKey_append_none (getKey_append_none (getKey_strParam_ne _ (by decide)) (getKey_listParam_ne _ (by decide))) (getKey_listParam_ne _ (by decide))) rfl)
  · intro env rn
    exact calls_all_key_absent (describe_applications_calls_cases env (some []) rn)
      rfl rfl
  · intro env en eid st et mr sev rn
    exact calls_all_key_absent
      (describe_events_calls_cases env (some "") en eid st et mr sev rn) rfl
      (getKey_append_none (getKey_append_none (getKey_append_none (getKey_append_none (getKey_append_none (getKey_append_none (getKey_strParam_falsy (by decide)) (getKey_strParam_ne _ (by decide))) (getKey_strParam_ne _ (by decide))) (getKey_strParam_ne _ (by decide))) (getKey_strParam_ne _ (by decide))) (getKey_intParam_ne _ (by decide))) (getKey_strParam_ne _ (by decide)))
  · intro env an eid st et mr sev rn
    exact calls_all_key_absent
      (describe_events_calls_cases env an (some "") eid st et mr sev rn) rfl
      (getKey_append_none (getKey_append_none (getKey_append_none (getKey_append_none (getKey_append_none (getKey_append_none (getKey_strParam_ne _ (by decide)) (getKey_strParam_falsy (by decide))) (getKey_strParam_ne _ (by decide))) (getKey_strParam_ne _ (by decide))) (getKey_strParam_ne _ (by decide))) (getKey_intParam_ne _ (by decide))) (getKey_strParam_ne _ (by decide)))
  · intro env an en st et mr sev rn
    exact calls_all_key_absent
      (describe_events_calls_cases env an en (some "") st et mr sev rn) rfl
      (getKey_append_none (getKey_append_none (getKey_append_none (getKey_append_none (getKey_append_none (getKey_append_none (getKey_strParam_ne _ (by decide)) (getKey_strParam_ne _ (by decide))) (getKey_strParam_falsy (by decide))) (getKey_strParam_ne _ (by decide))) (getKey_strParam_ne _ (by decide))) (getKey_intParam_ne _ (by decide))) (getKey_strParam_ne _ (by decide)))
  · intro env an en eid et mr sev rn
    exact calls_all_key_absent
      (describe_events_calls_cases env an en eid (some "") et mr sev rn) rfl
      (getKey_append_none (getKey_append_none (getKey_append_none (getKey_append_none (getKey_append_none (getKey_append_none (getKey_strParam_ne _ (by decide)) (getKey_strParam_ne _ (by decide))) (getKey_strParam_ne _ (by decide))) (getKey_strParam_falsy (by decide))) (getKey_strParam_ne _ (by decide))) (getKey_intParam_ne _ (by decide))) (getKey_strParam_ne _ (by decide)))
  · intro env an en eid st mr sev rn
    exact calls_all_key_absent
      (describe_events_calls_cases env an en eid st (some "") mr sev rn) rfl
      (getKey_append_none (getKey_append_none (getKey_append_none (getKey_append_none (getKey_append_none (getKey_append_none (getKey_strParam_ne _ (by decide)) (getKey_strParam_ne _ (by decide))) (getKey_strParam_ne _ (by decide))) (getKey_strParam_ne _ (by decide))) (getKey_strParam_falsy (by decide))) (getKey_intParam_ne _ (by decide))) (getKey_strParam_ne _ (by decide)))
  · intro env an en eid st et sev rn
    exact calls_all_key_absent
      (describe_events_calls_cases env an en eid st et (some 0) sev rn) rfl
      (getKey_append_none (getKey_append_none (getKey_append_none (getKey_append_none (getKey_append_none (getKey_append_none (getKey_strParam_ne _ (by decide)) (getKey_strParam_ne _ (by decide))) (getKey_strParam_ne _ (by decide))) (getKey_strParam_ne _ (by decide))) (getKey_strParam_ne _ (by decide))) (getKey_intParam_falsy (by decide))) (getKey_strParam_ne _ (by decide)))
  · intro env an en eid st et mr rn
    exact calls_all_key_absent
      (describe_events_calls_cases env an en eid st et mr (some "") rn) rfl
      (getKey_append_none (getKey_append_none (getKey_append_none (getKey_append_none (getKey_append_none (getKey_append_none (getKey_strParam_ne _ (by decide)) (getKey_strParam_ne _ (by decide))) (getKey_strParam_ne _ (by decide))) (getKey_strParam_ne _ (by decide))) (getKey_strParam_ne _ (by decide))) (getKey_intParam_ne _ (by decide))) (getKey_strParam_falsy (by decide)))
  · intro env app tn rn
    exact calls_all_key_absent
      (describe_config_settings_calls_cases env app (some "") tn rn) rfl
      (dcs_params_EnvironmentName_falsy app (some "") tn (by decide))
  · intro env app en rn
    exact calls_all_key_absent
      (describe_config_settings_calls_cases env app en (some "") rn) rfl
      (dcs_params_TemplateName_falsy app en (some "") (by decide))

/-- Witness for claim C10 at a concrete world: with both names supplied as
empty strings, describe_config_settings raises the missing-parameter
ClientError. -/
theorem claim_C10_witness :
    (describe_config_settings envOk "my-app" (some "") (some "") none).2 =
      .error (.clientError missingParamMsg) :=
  claim_C10.1 envOk "my-app" none _ rfl

end EB

